import Mathlib

/-!
Shallow embedding of the agent control loop of the acm-agent repository
(file src/acm_agent.py).  The repository wires a LangGraph two-node graph
(model node `call_model`, tool node from `create_debug_tool_node`) with the
conditional edge `should_continue`, on top of a configuration object
`ACMAgentConfig` loaded from the environment.

Remote effects are embedded as explicit oracles:
an `Oracle` is a chat-model endpoint (it receives the role-tagged message
list and answers with a content string plus a list of tool calls, or an
error), and an `Exec` is the remote tool-invocation call of the MCP server.
The behaviour of the external langgraph runtime that the code composes with
(the MessagesState append-reducer, the routing of `add_conditional_edges`,
and `ToolNode`, which turns each tool call of the last assistant message
into one ToolMessage in order, encoding a tool failure as an error-text
message) is embedded following that library's documented semantics, since
the repository delegates those steps to it.
-/

/-- A tool call emitted by the model: tool name, argument payload
(opaque here), and the originating-call identifier. -/
structure ToolCall where
  name : String
  args : String
  id : String
deriving DecidableEq

/-- The langchain message taxonomy used by src/acm_agent.py:
SystemMessage, HumanMessage, AIMessage (which carries `tool_calls`)
and ToolMessage (which carries `tool_call_id`). -/
inductive Message where
  | system (content : String)
  | human (content : String)
  | ai (content : String) (tool_calls : List ToolCall)
  | tool (content : String) (tool_call_id : String)
deriving DecidableEq

/-- The `tool_call_id` attribute: present only on ToolMessage. -/
def Message.toolCallId? : Message → Option String
  | Message.tool _ cid => some cid
  | _ => none

/-- Projection used to state order-correspondence between tool calls and
tool results. -/
def toolCallIdOf (tc : ToolCall) : Option String := some tc.id

/-- Python `messages[-1]`: the last element of the conversation, `none` on
the empty list (an IndexError in the source). -/
def lastMessage? : List Message → Option Message
  | [] => none
  | [m] => some m
  | _ :: m :: rest => lastMessage? (m :: rest)

/-- Number of SystemMessages in a conversation. -/
def countSystem : List Message → Nat
  | [] => 0
  | Message.system _ :: rest => countSystem rest + 1
  | _ :: rest => countSystem rest

/-! ### Python float parsing (for `ACMAgentConfig.from_env`)

`from_env` calls `float(os.getenv("MODEL_TEMPERATURE", "0.01"))`.  The
value is idealised as an exact rational (the claims only concern whether
parsing succeeds and the default); the accepted syntax follows Python's
`float(str)`: optional surrounding whitespace, optional sign, then either
`inf`/`infinity`/`nan` (case-insensitive) or a decimal literal with
optional fractional part and exponent, with single underscores allowed
between digits. -/

/-- Result of Python `float(...)` on a string, value idealised in ℚ. -/
inductive PyFloat where
  | finite (q : ℚ)
  | inf (neg : Bool)
  | nan
deriving DecidableEq

/-- ASCII whitespace stripped by `float(str)`. -/
def isPyWs (c : Char) : Bool :=
  (c == ' ') || (c == '\t') || (c == '\n') || (c == '\r') ||
    (c == '\x0b') || (c == '\x0c')

/-- Strip leading and trailing whitespace. -/
def stripWs (cs : List Char) : List Char :=
  ((cs.dropWhile isPyWs).reverse.dropWhile isPyWs).reverse

/-- Numeric value of an ASCII digit. -/
def digitVal (c : Char) : Nat := c.toNat - 48

/-- Consume a digit group `D ( _? D )*` (single underscores only between
digits).  Returns the accumulated value, the number of digits read, and
the unread remainder. -/
def digitsCore : List Char → Nat → Nat → Nat × Nat × List Char
  | [], acc, n => (acc, n, [])
  | c :: rest, acc, n =>
    if c.isDigit then digitsCore rest (10 * acc + digitVal c) (n + 1)
    else if c = '_' then
      match n, rest with
      | Nat.succ _, d :: rest2 =>
        if d.isDigit then digitsCore rest2 (10 * acc + digitVal d) (n + 1)
        else (acc, n, c :: rest)
      | _, _ => (acc, n, c :: rest)
    else (acc, n, c :: rest)

/-- Apply a base-10 exponent to a rational. -/
def applyExp (q : ℚ) (e : Int) : ℚ :=
  match e with
  | Int.ofNat n => q * (10 : ℚ) ^ n
  | Int.negSucc n => q / (10 : ℚ) ^ (n + 1)

/-- Parse the digits of an exponent (after the optional sign). -/
def parseExpDigits (cs : List Char) (neg : Bool) : Option Int :=
  match digitsCore cs 0 0 with
  | (v, n, rest) =>
    match n, rest with
    | Nat.succ _, [] => some (if neg then -(v : Int) else (v : Int))
    | _, _ => none

/-- Parse an optional exponent part; the whole remainder must be consumed. -/
def parseExp (cs : List Char) : Option Int :=
  match cs with
  | [] => some 0
  | c :: rest =>
    if c == 'e' || c == 'E' then
      match rest with
      | '+' :: rest2 => parseExpDigits rest2 false
      | '-' :: rest2 => parseExpDigits rest2 true
      | _ => parseExpDigits rest false
    else none

/-- Parse an unsigned decimal literal (`D+ [. D*] [exp]` or `. D+ [exp]`
or `D+ . D* [exp]`), consuming the whole input. -/
def parseNumeric (cs : List Char) : Option ℚ :=
  match digitsCore cs 0 0 with
  | (ip, ic, r1) =>
    match r1 with
    | '.' :: r2 =>
      match digitsCore r2 0 0 with
      | (fp, fc, r3) =>
        match ic, fc with
        | 0, 0 => none
        | _, _ =>
          match parseExp r3 with
          | some e => some (applyExp ((ip : ℚ) + (fp : ℚ) / (10 : ℚ) ^ fc) e)
          | none => none
    | _ =>
      match ic with
      | 0 => none
      | _ =>
        match parseExp r1 with
        | some e => some (applyExp (ip : ℚ) e)
        | none => none

/-- Unsigned body after the sign: `inf`, `infinity`, `nan`, or a number. -/
def parseBody (neg : Bool) (cs : List Char) : Option PyFloat :=
  if cs.map Char.toLower = "inf".data ∨ cs.map Char.toLower = "infinity".data then
    some (PyFloat.inf neg)
  else if cs.map Char.toLower = "nan".data then some PyFloat.nan
  else
    match parseNumeric cs with
    | some q => some (PyFloat.finite (if neg then -q else q))
    | none => none

/-- Optional sign then body. -/
def parseSigned (cs : List Char) : Option PyFloat :=
  match cs with
  | '+' :: rest => parseBody false rest
  | '-' :: rest => parseBody true rest
  | _ => parseBody false cs

/-- Python `float(s)`: `none` models the raised ValueError. -/
def pyFloat? (s : String) : Option PyFloat :=
  parseSigned (stripWs s.data)

/-! ### Configuration (`ACMAgentConfig`) -/

/-- The process environment: `os.getenv`. -/
abbrev Env := String → Option String

/-- `os.getenv(key, default)`. -/
def getenvD (env : Env) (key dflt : String) : String := (env key).getD dflt

/-- The dataclass `ACMAgentConfig` of src/acm_agent.py (lines 15-42). -/
structure ACMAgentConfig where
  openai_api_key : String
  model_provider : String
  model_name : String
  temperature : PyFloat
  mcp_server_url : String
  mcp_transport : String
  mcp_bearer_token : String
deriving DecidableEq

/-- `ACMAgentConfig.from_env` (lines 28-42): each field from its
environment variable with the source's default; `float(...)` on the
temperature may fail, modelled by the `none` result. -/
def ACMAgentConfig.from_env (env : Env) : Option ACMAgentConfig :=
  match pyFloat? (getenvD env "MODEL_TEMPERATURE" "0.01") with
  | none => none
  | some t =>
    some (ACMAgentConfig.mk
      (getenvD env "OPENAI_API_KEY" "")
      (getenvD env "MODEL_PROVIDER" "openai")
      (getenvD env "MODEL_NAME" "gpt-4o")
      t
      (getenvD env "MCP_SERVER_URL" "")
      (getenvD env "MCP_TRANSPORT" "sse")
      (getenvD env "MCP_BEARER_TOKEN" ""))

/-- The key override of `create_acm_agent` (lines 259-261):
`if openai_api_key: config.openai_api_key = openai_api_key`
(a non-empty string is truthy). -/
def applyKeyOverride (cfg : ACMAgentConfig) (key : Option String) : ACMAgentConfig :=
  match key with
  | none => cfg
  | some s =>
    if s = "" then cfg
    else ACMAgentConfig.mk s cfg.model_provider cfg.model_name cfg.temperature
      cfg.mcp_server_url cfg.mcp_transport cfg.mcp_bearer_token

/-- Temperature of an optional config (projection used in statements). -/
def tempOf : Option ACMAgentConfig → Option PyFloat
  | some cfg => some cfg.temperature
  | none => none

/-! ### The agent (`ACMSearchAgent`) -/

/-- A remote chat-model endpoint (`self.llm` or `self.model_with_tools`):
given the messages, it returns the assistant content plus tool calls, or
fails (e.g. ModelUnavailableError). -/
abbrev Oracle := List Message → Except String (String × List ToolCall)

/-- The remote tool-invocation call: one tool call in, its result text out,
or a ToolExecutionError. -/
abbrev Exec := ToolCall → Except String String

/-- Routes returned by `should_continue`: the string "tools" or END. -/
inductive Route where
  | tools
  | endRoute
deriving DecidableEq

/-- Graph nodes added by `create_graph`. -/
inductive AgentNode where
  | callModel
  | tools
deriving DecidableEq

/-- Shape of the compiled graph: with the tools node and conditional edge,
or the simple flow `call_model → END`. -/
inductive GraphShape where
  | withTools
  | toolless
deriving DecidableEq

/-- Node names added by `builder.add_node` in each shape. -/
def GraphShape.nodes : GraphShape → List String
  | GraphShape.withTools => ["call_model", "tools"]
  | GraphShape.toolless => ["call_model"]

/-- The mutable attributes of `ACMSearchAgent` (lines 62-70); tool
descriptors are kept by name. -/
structure AgentState where
  config : ACMAgentConfig
  llm : Option Oracle
  tools : List String
  model_with_tools : Option Oracle
  tool_node : Option Exec
  graph : Option GraphShape
  system_prompt : Option String

/-- `ACMSearchAgent.__init__`. -/
def freshAgent (cfg : ACMAgentConfig) : AgentState :=
  AgentState.mk cfg none [] none none none none

/-- `setup_mcp_connection` (lines 72-116): on success the system prompt is
cached, the model initialised, the MCP tools fetched and bound, and the
debug tool node created; any exception is caught and the agent falls back
to a plain model with an empty tool list (the prompt was already cached
before the connection attempt).  The connection attempt is the `conn`
argument; `initModel` is the `init_chat_model` result, `bindT` is
`llm.bind_tools`, `ex` the tool invocation of the fetched tools, and
`fallbackModel` the fallback `ChatOpenAI`. -/
def setup_mcp_connection (a : AgentState) (sp : String) (initModel : Oracle)
    (bindT : List String → Oracle) (ex : Exec) (fallbackModel : Oracle)
    (conn : Except String (List String)) : AgentState :=
  match conn with
  | Except.ok ts =>
    AgentState.mk a.config (some initModel) ts (some (bindT ts)) (some ex)
      a.graph (some sp)
  | Except.error _ =>
    AgentState.mk a.config (some fallbackModel) [] a.model_with_tools
      a.tool_node a.graph (some sp)

/-- Decision of `should_continue` from the last message: AIMessages branch
on their `tool_calls` (nonempty is truthy); other messages have no
`tool_calls` attribute (AttributeError), and `messages[-1]` on an empty
list is an IndexError — both modelled as `none`. -/
def shouldContinueLast : Option Message → Option Route
  | some (Message.ai _ []) => some Route.endRoute
  | some (Message.ai _ (_ :: _)) => some Route.tools
  | some _ => none
  | none => none

/-- `should_continue` (lines 179-186): `messages[-1]`, then
`if last_message.tool_calls: return "tools"` else END. -/
def should_continue (messages : List Message) : Option Route :=
  match lastMessage? messages with
  | some (Message.ai _ []) => some Route.endRoute
  | some (Message.ai _ (_ :: _)) => some Route.tools
  | some _ => none
  | none => none

/-- The system-prompt insertion of `call_model` (lines 192-197): prepend
`SystemMessage(self.system_prompt)` unless the list already starts with a
SystemMessage. -/
def prependSystem (sp : String) (messages : List Message) : List Message :=
  match messages with
  | [] => [Message.system sp]
  | m :: rest =>
    match m with
    | Message.system c => Message.system c :: rest
    | _ => Message.system sp :: m :: rest

/-- Wrap a model answer as the `{"messages": [response]}` delta returned
by `call_model` (the response of a chat model is an AIMessage). -/
def modelReply (r : Except String (String × List ToolCall)) :
    Except String (List Message) :=
  match r with
  | Except.ok p => Except.ok [Message.ai p.1 p.2]
  | Except.error e => Except.error e

/-- Model selection of `call_model` (lines 199-203): use
`self.model_with_tools` when set, otherwise fall back to `self.llm`
(an unset `llm` is an AttributeError). -/
def selectModel (mwt llm : Option Oracle) (msgs : List Message) :
    Except String (String × List ToolCall) :=
  match mwt with
  | some m => m msgs
  | none =>
    match llm with
    | some l => l msgs
    | none => Except.error "AttributeError: llm is None"

/-- `call_model` (lines 188-205): prepend the cached system prompt if
absent, invoke the selected model once, and return the single-response
delta; an exception of the model call propagates. -/
def call_model (sp : String) (mwt llm : Option Oracle)
    (messages : List Message) : Except String (List Message) :=
  modelReply (selectModel mwt llm (prependSystem sp messages))

/-- Error payload that langgraph's `ToolNode` feeds back to the model when
a tool invocation raises. -/
def toolErrorContent (err : String) : String :=
  "Error: " ++ err ++ "\n Please fix your mistakes."

/-- One ToolMessage per tool call, as produced by `ToolNode`: the result
text on success, the error text on failure, tagged with the originating
call id. -/
def toolResultMessage (ex : Exec) (tc : ToolCall) : Message :=
  match ex tc with
  | Except.ok out => Message.tool out tc.id
  | Except.error err => Message.tool (toolErrorContent err) tc.id

/-- The node of `create_debug_tool_node` (lines 118-141): it delegates to
`ToolNode(self.tools).ainvoke(state)`, whose message delta is one
ToolMessage per tool call of the last (assistant) message, in order;
`none` models the ToolNode error when the last message carries none. -/
def debug_tool_execution (ex : Exec) (messages : List Message) :
    Option (List Message) :=
  match lastMessage? messages with
  | some (Message.ai _ tcs) => some (List.map (toolResultMessage ex) tcs)
  | _ => none

/-- `create_graph` (lines 207-225): the tools node and conditional edge are
added only when `self.tools and self.tool_node` is truthy (nonempty list,
non-None node); otherwise `call_model` is wired directly to END. -/
def create_graph (a : AgentState) : AgentState :=
  AgentState.mk a.config a.llm a.tools a.model_with_tools a.tool_node
    (some (match a.tools, a.tool_node with
      | _ :: _, some _ => GraphShape.withTools
      | _, _ => GraphShape.toolless))
    a.system_prompt

/-- Node names of the compiled graph of an agent. -/
def graphNodesOf (a : AgentState) : List String :=
  match a.graph with
  | some s => GraphShape.nodes s
  | none => []

/-- Agent construction as performed by `create_acm_agent` after the config
is ready: `ACMSearchAgent(config)`, `setup_mcp_connection`, `create_graph`. -/
def makeAgent (cfg : ACMAgentConfig) (sp : String) (initModel : Oracle)
    (bindT : List String → Oracle) (ex : Exec) (fallbackModel : Oracle)
    (conn : Except String (List String)) : AgentState :=
  create_graph (setup_mcp_connection (freshAgent cfg) sp initModel bindT ex
    fallbackModel conn)

/-- `create_acm_agent` (lines 254-266): load the config from the
environment, override the API key when one is passed (truthy), then build
the agent. -/
def create_acm_agent (env : Env) (key : Option String) (sp : String)
    (initModel : Oracle) (bindT : List String → Oracle) (ex : Exec)
    (fallbackModel : Oracle) (conn : Except String (List String)) :
    Option AgentState :=
  match ACMAgentConfig.from_env env with
  | none => none
  | some cfg =>
    some (makeAgent (applyKeyOverride cfg key) sp initModel bindT ex
      fallbackModel conn)

/-! ### Turn execution (the compiled graph run by `chat`) -/

/-- State of one turn of the graph run: at a node with the accumulated
conversation, finished (END reached), or failed with a propagated
exception. -/
inductive TurnState where
  | running (node : AgentNode) (messages : List Message)
  | finished (messages : List Message)
  | failed (err : String)
deriving DecidableEq

/-- Messages held by a turn state. -/
def stateMessages : TurnState → List Message
  | TurnState.running _ ms => ms
  | TurnState.finished ms => ms
  | TurnState.failed _ => []

/-- Whether a turn state sits at the tools node (AwaitingTools). -/
def TurnState.atToolsState : TurnState → Bool
  | TurnState.running AgentNode.tools _ => true
  | _ => false

/-- Whether a turn state is still running (neither END nor an error). -/
def TurnState.isRunningState : TurnState → Bool
  | TurnState.running _ _ => true
  | _ => false

/-- One super-step of the compiled graph: at `call_model` the node runs and
its delta is appended by the MessagesState reducer, then the conditional
edge (`should_continue`) routes to the tools node or END — except in the
toolless shape, where `call_model` is wired directly to END; at the tools
node the tool results are appended and the fixed edge returns to
`call_model`. -/
def step (a : AgentState) (st : TurnState) : TurnState :=
  match st with
  | TurnState.finished ms => TurnState.finished ms
  | TurnState.failed e => TurnState.failed e
  | TurnState.running AgentNode.callModel ms =>
    match a.graph with
    | none => TurnState.failed "graph not compiled"
    | some shape =>
      match call_model (a.system_prompt.getD "") a.model_with_tools a.llm ms with
      | Except.error e => TurnState.failed e
      | Except.ok delta =>
        match shape with
        | GraphShape.toolless => TurnState.finished (ms ++ delta)
        | GraphShape.withTools =>
          match should_continue (ms ++ delta) with
          | some Route.tools => TurnState.running AgentNode.tools (ms ++ delta)
          | some Route.endRoute => TurnState.finished (ms ++ delta)
          | none => TurnState.failed "should_continue: no last assistant message"
  | TurnState.running AgentNode.tools ms =>
    match a.tool_node with
    | none => TurnState.failed "tool node missing"
    | some ex =>
      match debug_tool_execution ex ms with
      | some delta => TurnState.running AgentNode.callModel (ms ++ delta)
      | none => TurnState.failed "tool node: last message has no tool calls"

/-- `chat` (lines 227-251) invokes the graph on
`{"messages": [HumanMessage(user_input)]}`; `runTurn a q n` is the turn
state after `n` super-steps. -/
def runTurn (a : AgentState) (q : String) : Nat → TurnState
  | 0 => TurnState.running AgentNode.callModel [Message.human q]
  | n + 1 => step a (runTurn a q n)

/-- The turn never sits at the tools node (never AwaitingTools). -/
def neverAtTools (a : AgentState) (q : String) : Prop :=
  ∀ n : Nat, TurnState.atToolsState (runTurn a q n) = false

/-- The turn keeps cycling: after any number of super-steps it is still
running (it neither reaches END nor fails). -/
def cyclesForever (a : AgentState) (q : String) : Prop :=
  ∀ n : Nat, TurnState.isRunningState (runTurn a q n) = true

/-- The conversation ends with an assistant message carrying no tool
calls. -/
def endsWithPlainAi (ms : List Message) : Bool :=
  match lastMessage? ms with
  | some (Message.ai _ []) => true
  | _ => false

/-! ### Concrete inputs for counterexamples and witnesses -/

/-- A concrete tool call. -/
def tcDemo : ToolCall := ToolCall.mk "search_clusters" "" "call-1"

/-- A model that always requests the same tool call. -/
def alwaysToolsOracle : Oracle :=
  fun _ => Except.ok ("calling tool", [tcDemo])

/-- A `bind_tools` stand-in returning the always-tool-calling model. -/
def constAlwaysBind : List String → Oracle := fun _ => alwaysToolsOracle

/-- A model that immediately answers with no tool calls. -/
def doneOracle : Oracle := fun _ => Except.ok ("done", [])

/-- A `bind_tools` stand-in returning the immediately-done model. -/
def constDoneBind : List String → Oracle := fun _ => doneOracle

/-- A plain chat model answering with text only. -/
def plainOracle : Oracle := fun _ => Except.ok ("plain answer", [])

/-- A model endpoint that is unavailable. -/
def unavailableOracle : Oracle :=
  fun _ => Except.error "ModelUnavailableError"

/-- A tool invocation that succeeds. -/
def okExec : Exec := fun _ => Except.ok "cluster-a cluster-b cluster-c"

/-- A tool invocation that fails remotely. -/
def failExec : Exec := fun _ => Except.error "ToolExecutionError: boom"

/-- A concrete configuration. -/
def cfgDemo : ACMAgentConfig :=
  ACMAgentConfig.mk "sk-demo" "openai" "gpt-4o" (PyFloat.finite (1 / 100))
    "http://mcp.example" "sse" "token"

/-- A configuration with an empty tool endpoint URL. -/
def cfgEmptyUrl : ACMAgentConfig :=
  ACMAgentConfig.mk "sk-demo" "openai" "gpt-4o" (PyFloat.finite (1 / 100))
    "" "sse" ""

/-- An agent whose model always requests a tool call, built through the
source's setup and graph construction with a successful MCP connection. -/
def agentLoop : AgentState :=
  makeAgent cfgDemo "sys-prompt" alwaysToolsOracle constAlwaysBind okExec
    alwaysToolsOracle (Except.ok ["search_clusters"])

/-- An agent (tools wired) whose model immediately answers. -/
def agentDone : AgentState :=
  makeAgent cfgDemo "sys-prompt" doneOracle constDoneBind okExec doneOracle
    (Except.ok ["search_clusters"])

/-- An agent (tools wired) whose tool endpoint fails every invocation. -/
def agentToolFail : AgentState :=
  makeAgent cfgDemo "sys-prompt" alwaysToolsOracle constAlwaysBind failExec
    alwaysToolsOracle (Except.ok ["search_clusters"])

/-- Environment holding only an API key. -/
def envC9 : Env :=
  fun k => if k = "OPENAI_API_KEY" then some "env-key" else none

/-- Environment with a non-numeric MODEL_TEMPERATURE. -/
def envBadTemp : Env :=
  fun k => if k = "MODEL_TEMPERATURE" then some "abc" else none

/-- Empty environment. -/
def envEmpty : Env := fun _ => none

/-- API key of an optionally-built agent. -/
def agentKeyOf : Option AgentState → String
  | some a => a.config.openai_api_key
  | none => ""

/-- API key loaded from the environment alone. -/
def fromEnvKeyOf (env : Env) : String :=
  match ACMAgentConfig.from_env env with
  | some cfg => cfg.openai_api_key
  | none => ""

/-! ### Helper lemmas -/

/-- The last element of a conversation extended by one message. -/
theorem lastMessage?_append_single (ms : List Message) (x : Message) :
    lastMessage? (ms ++ [x]) = some x := by
  induction ms with
  | nil => rfl
  | cons a tl ih =>
    cases tl with
    | nil => rfl
    | cons b tl2 => simpa [List.cons_append, lastMessage?] using ih

/-- A successful model reply is a single assistant message. -/
theorem modelReply_ok (r : Except String (String × List ToolCall))
    (delta : List Message) (h : modelReply r = Except.ok delta) :
    ∃ c tcs, r = Except.ok (c, tcs) ∧ delta = [Message.ai c tcs] := by
  cases r with
  | ok p =>
    refine ⟨p.1, p.2, rfl, ?_⟩
    simp [modelReply] at h
    exact h.symm
  | error e => simp [modelReply] at h

/-- SystemMessage count distributes over append. -/
theorem countSystem_append (l1 l2 : List Message) :
    countSystem (l1 ++ l2) = countSystem l1 + countSystem l2 := by
  induction l1 with
  | nil => simp [countSystem]
  | cons m rest ih =>
    cases m <;> simp [countSystem, ih]
    omega

/-- A tool result message is a ToolMessage tagged with the call id. -/
theorem toolCallId_toolResult (ex : Exec) (tc : ToolCall) :
    Message.toolCallId? (toolResultMessage ex tc) = some tc.id := by
  cases h : ex tc <;> simp [toolResultMessage, h, Message.toolCallId?]

/-- Tool result messages are never SystemMessages. -/
theorem countSystem_map_toolResult (ex : Exec) (tcs : List ToolCall) :
    countSystem (List.map (toolResultMessage ex) tcs) = 0 := by
  induction tcs with
  | nil => rfl
  | cons tc rest ih =>
    cases h : ex tc <;> simp [List.map, toolResultMessage, h, countSystem, ih]

/-- The ids carried by tool results are the ids of the originating calls,
in order. -/
theorem map_toolCallIds (ex : Exec) (tcs : List ToolCall) :
    List.map Message.toolCallId? (List.map (toolResultMessage ex) tcs) =
      List.map toolCallIdOf tcs := by
  induction tcs with
  | nil => rfl
  | cons tc rest ih =>
    simp [List.map, ih, toolCallId_toolResult, toolCallIdOf]

/-- One graph super-step never introduces a SystemMessage. -/
theorem countSystem_step (a : AgentState) (st : TurnState)
    (h : countSystem (stateMessages st) = 0) :
    countSystem (stateMessages (step a st)) = 0 := by
  cases st with
  | finished ms => simpa [step, stateMessages] using h
  | failed e => simp [step, stateMessages, countSystem]
  | running node ms =>
    simp only [stateMessages] at h
    cases node with
    | callModel =>
      cases hg : a.graph with
      | none => simp [step, hg, stateMessages, countSystem]
      | some shape =>
        cases hcm : call_model (a.system_prompt.getD "") a.model_with_tools a.llm ms with
        | error e => simp [step, hg, hcm, stateMessages, countSystem]
        | ok delta =>
          obtain ⟨c, tcs, hr, hdelta⟩ := modelReply_ok _ _ hcm
          have hms2 : countSystem (ms ++ delta) = 0 := by
            subst hdelta
            simp [countSystem_append, h, countSystem]
          cases shape with
          | toolless => simp [step, hg, hcm, stateMessages, hms2]
          | withTools =>
            cases hsc : should_continue (ms ++ delta) with
            | none => simp [step, hg, hcm, hsc, stateMessages, countSystem]
            | some r =>
              cases r <;> simp [step, hg, hcm, hsc, stateMessages, hms2]
    | tools =>
      cases ht : a.tool_node with
      | none => simp [step, ht, stateMessages, countSystem]
      | some ex =>
        cases hde : debug_tool_execution ex ms with
        | none => simp [step, ht, hde, stateMessages, countSystem]
        | some delta =>
          have hdelta0 : countSystem delta = 0 := by
            unfold debug_tool_execution at hde
            cases hl : lastMessage? ms with
            | none => rw [hl] at hde; simp at hde
            | some m =>
              rw [hl] at hde
              cases m with
              | ai c tcs =>
                simp only [Option.some.injEq] at hde
                rw [← hde]
                exact countSystem_map_toolResult ex tcs
              | system c => simp at hde
              | human c => simp at hde
              | tool c cid => simp at hde
          simp [step, ht, hde, stateMessages, countSystem_append, h, hdelta0]

/-- No state reachable in a turn contains a SystemMessage: the input is a
HumanMessage, model replies are AIMessages, tool results are ToolMessages. -/
theorem countSystem_runTurn (a : AgentState) (q : String) (n : Nat) :
    countSystem (stateMessages (runTurn a q n)) = 0 := by
  induction n with
  | zero => rfl
  | succ n ih => exact countSystem_step a _ ih

/-- In the toolless graph shape a super-step never lands on the tools
node. -/
theorem step_toolless_notTools (a : AgentState)
    (hg : a.graph = some GraphShape.toolless) (st : TurnState) :
    TurnState.atToolsState (step a st) = false := by
  cases st with
  | finished ms => simp [step, TurnState.atToolsState]
  | failed e => simp [step, TurnState.atToolsState]
  | running node ms =>
    cases node with
    | callModel =>
      cases hcm : call_model (a.system_prompt.getD "") a.model_with_tools a.llm ms with
      | error e => simp [step, hg, hcm, TurnState.atToolsState]
      | ok delta => simp [step, hg, hcm, TurnState.atToolsState]
    | tools =>
      cases ht : a.tool_node with
      | none => simp [step, ht, TurnState.atToolsState]
      | some ex =>
        cases hde : debug_tool_execution ex ms with
        | none => simp [step, ht, hde, TurnState.atToolsState]
        | some delta => simp [step, ht, hde, TurnState.atToolsState]

/-- A toolless-graph turn never enters the tools node. -/
theorem toolless_neverAtTools (a : AgentState) (q : String)
    (hg : a.graph = some GraphShape.toolless) : neverAtTools a q := by
  intro n
  cases n with
  | zero => rfl
  | succ n => exact step_toolless_notTools a hg _

/-! ### Claim theorems -/

/-- Claim C1: in state AwaitingModel (the `call_model` node of the
tools-wired graph), the turn transitions to AwaitingTools exactly when the
model's response carries one or more ToolCalls and to Done (END) exactly
when it carries none; moreover `should_continue` decides this solely from
the last message of the state (it factors through `lastMessage?`). -/
theorem acm_c1_theorem (a : AgentState) (ms : List Message) (c : String)
    (tcs : List ToolCall)
    (hg : a.graph = some GraphShape.withTools)
    (hm : call_model (a.system_prompt.getD "") a.model_with_tools a.llm ms =
      Except.ok [Message.ai c tcs]) :
    (step a (TurnState.running AgentNode.callModel ms) =
        TurnState.running AgentNode.tools (ms ++ [Message.ai c tcs]) ↔ tcs ≠ []) ∧
    (step a (TurnState.running AgentNode.callModel ms) =
        TurnState.finished (ms ++ [Message.ai c tcs]) ↔ tcs = []) ∧
    should_continue ms = shouldContinueLast (lastMessage? ms) := by
  have hl : lastMessage? (ms ++ [Message.ai c tcs]) = some (Message.ai c tcs) :=
    lastMessage?_append_single ms (Message.ai c tcs)
  refine ⟨?_, ?_, ?_⟩
  · cases tcs with
    | nil =>
      have hsc : should_continue (ms ++ [Message.ai c []]) = some Route.endRoute := by
        simp [should_continue, hl]
      simp [step, hg, hm, hsc]
    | cons t ts =>
      have hsc : should_continue (ms ++ [Message.ai c (t :: ts)]) = some Route.tools := by
        simp [should_continue, hl]
      simp [step, hg, hm, hsc]
  · cases tcs with
    | nil =>
      have hsc : should_continue (ms ++ [Message.ai c []]) = some Route.endRoute := by
        simp [should_continue, hl]
      simp [step, hg, hm, hsc]
    | cons t ts =>
      have hsc : should_continue (ms ++ [Message.ai c (t :: ts)]) = some Route.tools := by
        simp [should_continue, hl]
      simp [step, hg, hm, hsc]
  · unfold should_continue shouldContinueLast
    cases lastMessage? ms with
    | none => rfl
    | some m =>
      cases m with
      | ai c2 tcs2 => cases tcs2 <;> rfl
      | system c2 => rfl
      | human c2 => rfl
      | tool c2 cid => rfl

/-- Claim C1 witness: a concrete agent whose model requests one tool call
routes to the tools node. -/
theorem acm_c1_witness :
    (step agentLoop (TurnState.running AgentNode.callModel [Message.human "hi"]) =
        TurnState.running AgentNode.tools
          ([Message.human "hi"] ++ [Message.ai "calling tool" [tcDemo]]) ↔
      [tcDemo] ≠ []) ∧
    (step agentLoop (TurnState.running AgentNode.callModel [Message.human "hi"]) =
        TurnState.finished ([Message.human "hi"] ++ [Message.ai "calling tool" [tcDemo]]) ↔
      [tcDemo] = []) ∧
    should_continue [Message.human "hi"] =
      shouldContinueLast (lastMessage? [Message.human "hi"]) :=
  acm_c1_theorem agentLoop [Message.human "hi"] "calling tool" [tcDemo] rfl rfl

/-- Claim C2: when the last message is an assistant message with N ≥ 1
tool calls, the tool-execution node appends exactly N ToolResult messages
and hands control back to the model node, and the i-th appended result
carries the id of the i-th ToolCall. -/
theorem acm_c2_theorem (a : AgentState) (ms : List Message) (c : String)
    (tcs : List ToolCall) (ex : Exec)
    (hex : a.tool_node = some ex)
    (hlast : lastMessage? ms = some (Message.ai c tcs))
    (hne : tcs ≠ []) :
    step a (TurnState.running AgentNode.tools ms) =
      TurnState.running AgentNode.callModel
        (ms ++ List.map (toolResultMessage ex) tcs) ∧
    (List.map (toolResultMessage ex) tcs).length = tcs.length ∧
    List.map Message.toolCallId? (List.map (toolResultMessage ex) tcs) =
      List.map toolCallIdOf tcs := by
  refine ⟨?_, ?_, map_toolCallIds ex tcs⟩
  · simp [step, hex, debug_tool_execution, hlast]
  · simp

/-- Claim C2 witness: one tool call yields exactly one ToolResult with the
matching id, then control returns to the model node. -/
theorem acm_c2_witness :
    step agentLoop (TurnState.running AgentNode.tools
        [Message.ai "calling tool" [tcDemo]]) =
      TurnState.running AgentNode.callModel
        ([Message.ai "calling tool" [tcDemo]] ++
          List.map (toolResultMessage okExec) [tcDemo]) ∧
    (List.map (toolResultMessage okExec) [tcDemo]).length = [tcDemo].length ∧
    List.map Message.toolCallId? (List.map (toolResultMessage okExec) [tcDemo]) =
      List.map toolCallIdOf [tcDemo] :=
  acm_c2_theorem agentLoop [Message.ai "calling tool" [tcDemo]] "calling tool"
    [tcDemo] okExec rfl rfl (by simp)

/-- Claim C7: a ToolCall whose remote invocation fails is encoded as a
ToolResult message whose content is the error text, appended at the
position of its call, and the tools node still hands control back to the
model node (the failure neither aborts the loop nor ends the turn). -/
theorem acm_c7_theorem (a : AgentState) (ms : List Message) (c : String)
    (tcs : List ToolCall) (ex : Exec) (i : Nat) (tc : ToolCall) (err : String)
    (hex : a.tool_node = some ex)
    (hlast : lastMessage? ms = some (Message.ai c tcs))
    (hi : tcs.get? i = some tc)
    (herr : ex tc = Except.error err) :
    step a (TurnState.running AgentNode.tools ms) =
      TurnState.running AgentNode.callModel
        (ms ++ List.map (toolResultMessage ex) tcs) ∧
    (ms ++ List.map (toolResultMessage ex) tcs).get? (ms.length + i) =
      some (Message.tool (toolErrorContent err) tc.id) := by
  constructor
  · simp [step, hex, debug_tool_execution, hlast]
  · rw [List.get?_append_right (Nat.le_add_right _ _)]
    simp only [Nat.add_sub_cancel_left, List.get?_map, hi, Option.map_some]
    simp [toolResultMessage, herr]

/-- Claim C7 witness: a failing tool call produces an error ToolResult and
the loop continues. -/
theorem acm_c7_witness :
    step agentToolFail (TurnState.running AgentNode.tools
        [Message.ai "calling tool" [tcDemo]]) =
      TurnState.running AgentNode.callModel
        ([Message.ai "calling tool" [tcDemo]] ++
          List.map (toolResultMessage failExec) [tcDemo]) ∧
    ([Message.ai "calling tool" [tcDemo]] ++
        List.map (toolResultMessage failExec) [tcDemo]).get?
      ([Message.ai "calling tool" [tcDemo]].length + 0) =
      some (Message.tool (toolErrorContent "ToolExecutionError: boom") tcDemo.id) :=
  acm_c7_theorem agentToolFail [Message.ai "calling tool" [tcDemo]]
    "calling tool" [tcDemo] failExec 0 tcDemo "ToolExecutionError: boom"
    rfl rfl rfl rfl

/-- Claim C4 counterexample: with the tool-bound model unavailable and a
plain model available, `call_model` returns the propagated error — not a
degraded tool-less completion, and with no degradation flag; the claimed
retry-once-without-tools fallback does not exist in the code. -/
theorem acm_c4_counterexample :
    call_model "sys-prompt" (some unavailableOracle) (some plainOracle)
      [Message.human "hello"] = Except.error "ModelUnavailableError" := rfl

/-- Claim C4 (amended): when the bound-model call fails, `call_model`
propagates the error unchanged to the caller; the plain model is never
consulted (the result does not depend on it), so no tool-less retry and no
degradation indicator exist. -/
theorem acm_c4_theorem (sp : String) (f : Oracle) (llm llm2 : Option Oracle)
    (ms : List Message) (e : String)
    (h : f (prependSystem sp ms) = Except.error e) :
    call_model sp (some f) llm ms = Except.error e ∧
    call_model sp (some f) llm ms = call_model sp (some f) llm2 ms := by
  constructor
  · simp [call_model, selectModel, h, modelReply]
  · rfl

/-- Claim C4 witness: the amended behaviour at a concrete unavailable
model. -/
theorem acm_c4_witness :
    call_model "sys-prompt" (some unavailableOracle) (some plainOracle)
        [Message.human "hello"] = Except.error "ModelUnavailableError" ∧
    call_model "sys-prompt" (some unavailableOracle) (some plainOracle)
        [Message.human "hello"] =
      call_model "sys-prompt" (some unavailableOracle) none
        [Message.human "hello"] :=
  acm_c4_theorem "sys-prompt" unavailableOracle (some plainOracle) none
    [Message.human "hello"] "ModelUnavailableError" rfl

/-- Compiled graph of the concrete looping agent. -/
theorem agentLoop_graph : agentLoop.graph = some GraphShape.withTools := rfl

/-- Bound model of the concrete looping agent. -/
theorem agentLoop_mwt : agentLoop.model_with_tools = some alwaysToolsOracle := rfl

/-- Cached prompt of the concrete looping agent. -/
theorem agentLoop_sp : agentLoop.system_prompt = some "sys-prompt" := rfl

/-- Tool node of the concrete looping agent. -/
theorem agentLoop_toolnode : agentLoop.tool_node = some okExec := rfl

/-- Claim C3: for every state reachable in any turn, the conversation
carries no SystemMessage, so the list handed to the model by `call_model`
starts with the configured system directive, which precedes all other
messages and occurs exactly once; and the prepending is idempotent. -/
theorem acm_c3_theorem (a : AgentState) (q sp : String) (n : Nat)
    (ms : List Message)
    (h : stateMessages (runTurn a q n) = ms) :
    countSystem ms = 0 ∧
    prependSystem sp ms = Message.system sp :: ms ∧
    countSystem (prependSystem sp ms) = 1 ∧
    prependSystem sp (prependSystem sp ms) = prependSystem sp ms := by
  have h0 : countSystem ms = 0 := by
    rw [← h]
    exact countSystem_runTurn a q n
  have hpre : prependSystem sp ms = Message.system sp :: ms := by
    cases ms with
    | nil => rfl
    | cons m rest =>
      cases m with
      | system c => simp [countSystem] at h0
      | human c => rfl
      | ai c tcs => rfl
      | tool c cid => rfl
  refine ⟨h0, hpre, ?_, ?_⟩
  · rw [hpre]
    simp [countSystem, h0]
  · rw [hpre]
    rfl

/-- Claim C3 witness: the initial state of a concrete turn. -/
theorem acm_c3_witness :
    countSystem [Message.human "hi"] = 0 ∧
    prependSystem "sys-prompt" [Message.human "hi"] =
      Message.system "sys-prompt" :: [Message.human "hi"] ∧
    countSystem (prependSystem "sys-prompt" [Message.human "hi"]) = 1 ∧
    prependSystem "sys-prompt" (prependSystem "sys-prompt" [Message.human "hi"]) =
      prependSystem "sys-prompt" [Message.human "hi"] :=
  acm_c3_theorem agentLoop "hi" "sys-prompt" 0 [Message.human "hi"] rfl

/-- Claim C5: when the MCP connection fails at startup, setup swallows the
error and falls back to a model-only agent (empty tool list, no bound
model), the compiled graph is the toolless flow, and a turn still produces
a text answer in one model call. -/
theorem acm_c5_theorem (cfg : ACMAgentConfig) (sp : String) (im : Oracle)
    (bt : List String → Oracle) (ex : Exec) (fb : Oracle)
    (err q c : String) (tcs : List ToolCall)
    (hfb : fb (prependSystem sp [Message.human q]) = Except.ok (c, tcs)) :
    (makeAgent cfg sp im bt ex fb (Except.error err)).tools = [] ∧
    (makeAgent cfg sp im bt ex fb (Except.error err)).model_with_tools = none ∧
    (makeAgent cfg sp im bt ex fb (Except.error err)).graph =
      some GraphShape.toolless ∧
    runTurn (makeAgent cfg sp im bt ex fb (Except.error err)) q 1 =
      TurnState.finished [Message.human q, Message.ai c tcs] := by
  refine ⟨rfl, rfl, rfl, ?_⟩
  show step _ (TurnState.running AgentNode.callModel [Message.human q]) = _
  simp [step, makeAgent, create_graph, setup_mcp_connection, freshAgent,
    call_model, selectModel, hfb, modelReply]

/-- Claim C5 witness: a concrete failed connection still answers. -/
theorem acm_c5_witness :
    (makeAgent cfgDemo "sys-prompt" plainOracle constDoneBind okExec
        plainOracle (Except.error "Connection refused")).tools = [] ∧
    (makeAgent cfgDemo "sys-prompt" plainOracle constDoneBind okExec
        plainOracle (Except.error "Connection refused")).model_with_tools = none ∧
    (makeAgent cfgDemo "sys-prompt" plainOracle constDoneBind okExec
        plainOracle (Except.error "Connection refused")).graph =
      some GraphShape.toolless ∧
    runTurn (makeAgent cfgDemo "sys-prompt" plainOracle constDoneBind okExec
        plainOracle (Except.error "Connection refused")) "hi" 1 =
      TurnState.finished [Message.human "hi", Message.ai "plain answer" []] :=
  acm_c5_theorem cfgDemo "sys-prompt" plainOracle constDoneBind okExec
    plainOracle "Connection refused" "hi" "plain answer" [] rfl

/-- Claim C6 counterexample: the code imposes no iteration maximum and has
no LoopLimitExceeded outcome — an agent whose model always requests a tool
call keeps cycling between the model and tools nodes forever, never
reaching END and never failing. -/
theorem acm_c6_counterexample : cyclesForever agentLoop "list all clusters" := by
  have key : ∀ n : Nat,
      (∃ ms, runTurn agentLoop "list all clusters" n =
        TurnState.running AgentNode.callModel ms) ∨
      (∃ ms, runTurn agentLoop "list all clusters" n =
          TurnState.running AgentNode.tools ms ∧
        lastMessage? ms = some (Message.ai "calling tool" [tcDemo])) := by
    intro n
    induction n with
    | zero => exact Or.inl ⟨_, rfl⟩
    | succ n ih =>
      rcases ih with ⟨ms, hms⟩ | ⟨ms, hms, hlast⟩
      · right
        have hsc : should_continue (ms ++ [Message.ai "calling tool" [tcDemo]]) =
            some Route.tools := by
          simp [should_continue, lastMessage?_append_single]
        refine ⟨ms ++ [Message.ai "calling tool" [tcDemo]], ?_,
          lastMessage?_append_single _ _⟩
        show step agentLoop (runTurn agentLoop "list all clusters" n) = _
        rw [hms]
        simp [step, agentLoop_graph, agentLoop_sp, agentLoop_mwt,
          call_model, selectModel, modelReply, alwaysToolsOracle, hsc]
      · left
        refine ⟨ms ++ List.map (toolResultMessage okExec) [tcDemo], ?_⟩
        show step agentLoop (runTurn agentLoop "list all clusters" n) = _
        rw [hms]
        simp [step, agentLoop_toolnode, debug_tool_execution, hlast]
  intro n
  rcases key n with ⟨ms, h⟩ | ⟨ms, h, _⟩ <;>
    simp [h, TurnState.isRunningState]

/-- Claim C6 (amended): no iteration bound and no LoopLimitExceeded
outcome exist in the code; with the tools-wired graph a turn reaches END
only when a model response carries no tool calls — the conversation then
ends with a plain assistant message. -/
theorem acm_c6_theorem (a : AgentState) (q : String) (n : Nat)
    (ms : List Message)
    (hg : a.graph = some GraphShape.withTools)
    (h : runTurn a q n = TurnState.finished ms) :
    endsWithPlainAi ms = true := by
  induction n generalizing ms with
  | zero => exact TurnState.noConfusion h
  | succ n ih =>
    have hstep : step a (runTurn a q n) = TurnState.finished ms := h
    cases hprev : runTurn a q n with
    | finished ms2 =>
      rw [hprev] at hstep
      simp only [step] at hstep
      injection hstep with h2
      subst h2
      exact ih ms2 hprev
    | failed e =>
      rw [hprev] at hstep
      simp only [step] at hstep
      exact TurnState.noConfusion hstep
    | running node ms2 =>
      rw [hprev] at hstep
      cases node with
      | tools =>
        cases ht : a.tool_node with
        | none => simp [step, ht] at hstep
        | some ex =>
          cases hde : debug_tool_execution ex ms2 with
          | none => simp [step, ht, hde] at hstep
          | some delta => simp [step, ht, hde] at hstep
      | callModel =>
        cases hcm : call_model (a.system_prompt.getD "") a.model_with_tools
            a.llm ms2 with
        | error e => simp [step, hg, hcm] at hstep
        | ok delta =>
          obtain ⟨c, tcs, hr, rfl⟩ := modelReply_ok _ _ hcm
          have hl : lastMessage? (ms2 ++ [Message.ai c tcs]) =
              some (Message.ai c tcs) := lastMessage?_append_single _ _
          cases tcs with
          | nil =>
            have hsc : should_continue (ms2 ++ [Message.ai c []]) =
                some Route.endRoute := by simp [should_continue, hl]
            simp only [step, hg, hcm, hsc] at hstep
            injection hstep with h2
            rw [← h2]
            simp [endsWithPlainAi, lastMessage?_append_single]
          | cons t ts =>
            have hsc : should_continue (ms2 ++ [Message.ai c (t :: ts)]) =
                some Route.tools := by simp [should_continue, hl]
            simp [step, hg, hcm, hsc] at hstep

/-- Claim C6 witness: a tools-wired agent whose model answers without tool
calls finishes, and the final conversation ends with a plain assistant
message. -/
theorem acm_c6_witness :
    endsWithPlainAi [Message.human "q", Message.ai "done" []] = true :=
  acm_c6_theorem agentDone "q" 1 [Message.human "q", Message.ai "done" []]
    rfl rfl

/-- Claim C8: with an empty tool endpoint URL the startup connection
fails, so the compiled graph has no tools node (`call_model` is its only
node, wired directly to END), the turn never enters AwaitingTools, and the
first model response is the final answer. -/
theorem acm_c8_theorem (cfg : ACMAgentConfig) (sp : String) (im : Oracle)
    (bt : List String → Oracle) (ex : Exec) (fb : Oracle)
    (conn : Except String (List String)) (err q c : String)
    (tcs : List ToolCall)
    (hurl : cfg.mcp_server_url = "")
    (hconn : conn = Except.error err)
    (hfb : fb (prependSystem sp [Message.human q]) = Except.ok (c, tcs)) :
    (makeAgent cfg sp im bt ex fb conn).graph = some GraphShape.toolless ∧
    graphNodesOf (makeAgent cfg sp im bt ex fb conn) = ["call_model"] ∧
    neverAtTools (makeAgent cfg sp im bt ex fb conn) q ∧
    runTurn (makeAgent cfg sp im bt ex fb conn) q 1 =
      TurnState.finished [Message.human q, Message.ai c tcs] := by
  subst hconn
  refine ⟨rfl, rfl, toolless_neverAtTools _ _ rfl, ?_⟩
  show step _ (TurnState.running AgentNode.callModel [Message.human q]) = _
  simp [step, makeAgent, create_graph, setup_mcp_connection, freshAgent,
    call_model, selectModel, hfb, modelReply]

/-- Claim C8 witness: a concrete empty-URL configuration. -/
theorem acm_c8_witness :
    (makeAgent cfgEmptyUrl "sys-prompt" plainOracle constDoneBind okExec
        plainOracle (Except.error "unreachable")).graph =
      some GraphShape.toolless ∧
    graphNodesOf (makeAgent cfgEmptyUrl "sys-prompt" plainOracle constDoneBind
        okExec plainOracle (Except.error "unreachable")) = ["call_model"] ∧
    neverAtTools (makeAgent cfgEmptyUrl "sys-prompt" plainOracle constDoneBind
        okExec plainOracle (Except.error "unreachable")) "hi" ∧
    runTurn (makeAgent cfgEmptyUrl "sys-prompt" plainOracle constDoneBind
        okExec plainOracle (Except.error "unreachable")) "hi" 1 =
      TurnState.finished [Message.human "hi", Message.ai "plain answer" []] :=
  acm_c8_theorem cfgEmptyUrl "sys-prompt" plainOracle constDoneBind okExec
    plainOracle (Except.error "unreachable") "unreachable" "hi" "plain answer"
    [] rfl rfl rfl

/-- Claim C9 counterexample: `create_acm_agent` mutates the settings after
construction — with OPENAI_API_KEY set in the environment and a key passed
by the caller, the agent's config carries the caller's key, not the one
`from_env` read. -/
theorem acm_c9_counterexample :
    agentKeyOf (create_acm_agent envC9 (some "ui-key") "sys-prompt"
        plainOracle constDoneBind okExec plainOracle
        (Except.error "unreachable")) = "ui-key" ∧
    fromEnvKeyOf envC9 = "env-key" ∧
    ("ui-key" : String) ≠ "env-key" := by
  refine ⟨rfl, rfl, by decide⟩

/-- Claim C9 (amended): no agent operation mutates the settings —
`setup_mcp_connection` and `create_graph` preserve `config`, and
`makeAgent` stores the given config unchanged — with the single exception
in the source: `create_acm_agent` overwrites `openai_api_key` with the
caller-supplied key when that key is truthy (non-empty), before the agent
is built; every other field is never changed. -/
theorem acm_c9_theorem (a : AgentState) (sp : String) (im : Oracle)
    (bt : List String → Oracle) (ex : Exec) (fb : Oracle)
    (conn : Except String (List String)) (cfg : ACMAgentConfig) (k : String) :
    (setup_mcp_connection a sp im bt ex fb conn).config = a.config ∧
    (create_graph a).config = a.config ∧
    (makeAgent cfg sp im bt ex fb conn).config = cfg ∧
    applyKeyOverride cfg none = cfg ∧
    applyKeyOverride cfg (some "") = cfg ∧
    (applyKeyOverride cfg (some k)).model_provider = cfg.model_provider ∧
    (applyKeyOverride cfg (some k)).model_name = cfg.model_name ∧
    (applyKeyOverride cfg (some k)).temperature = cfg.temperature ∧
    (applyKeyOverride cfg (some k)).mcp_server_url = cfg.mcp_server_url ∧
    (applyKeyOverride cfg (some k)).mcp_transport = cfg.mcp_transport ∧
    (applyKeyOverride cfg (some k)).mcp_bearer_token = cfg.mcp_bearer_token ∧
    (applyKeyOverride cfg (some k)).openai_api_key =
      (if k = "" then cfg.openai_api_key else k) := by
  refine ⟨?_, rfl, ?_, rfl, ?_, ?_, ?_, ?_, ?_, ?_, ?_, ?_⟩
  · cases conn <;> rfl
  · cases conn <;> rfl
  · simp [applyKeyOverride]
  all_goals by_cases hk : k = "" <;> simp [applyKeyOverride, hk]

/-- Claim C10: `from_env` is partial exactly through `float(...)` — when
MODEL_TEMPERATURE is set to a string `float` rejects, `from_env` raises
(returns no config); when it is unset, the default 0.01 is used and no
error occurs. -/
theorem acm_c10_theorem (env envU : Env) (s : String)
    (hset : env "MODEL_TEMPERATURE" = some s)
    (hbad : pyFloat? s = none)
    (hunset : envU "MODEL_TEMPERATURE" = none) :
    ACMAgentConfig.from_env env = none ∧
    tempOf (ACMAgentConfig.from_env envU) = some (PyFloat.finite (1 / 100)) := by
  have hshape : pyFloat? "0.01" =
      some (PyFloat.finite (applyExp (((0 : ℕ) : ℚ) + ((1 : ℕ) : ℚ) / (10 : ℚ) ^ (2 : ℕ))
        (Int.ofNat 0))) := rfl
  have h01 : pyFloat? "0.01" = some (PyFloat.finite (1 / 100)) := by
    rw [hshape]
    norm_num [applyExp]
  constructor
  · simp [ACMAgentConfig.from_env, getenvD, hset, hbad]
  · simp [ACMAgentConfig.from_env, getenvD, hunset, h01, tempOf]

/-- Claim C10 witness: MODEL_TEMPERATURE="abc" makes `from_env` raise;
an unset variable yields the 0.01 default. -/
theorem acm_c10_witness :
    ACMAgentConfig.from_env envBadTemp = none ∧
    tempOf (ACMAgentConfig.from_env envEmpty) =
      some (PyFloat.finite (1 / 100)) :=
  acm_c10_theorem envBadTemp envEmpty "abc" rfl (by decide) rfl
